import Mathlib

/-!
Verification of the Open Operator web-agent orchestration core.

The embedded program is a Next.js application.  The orchestration core lives
in three places:

- the navigate API route (session registry `activeSessions`, the planner
  helpers `handleStartAction` / `handleGetNextStep` / `handleFollowUpStart`,
  the executor `handleExecuteStep`, and the `POST` / `DELETE` handlers);
- the session API route (its `DELETE` handler: best-effort final screenshot,
  close, evict);
- page.tsx (the client-side agent loops `handleSubmit`, `handleFollowUp`,
  `handleExecuteAction`).

External collaborators (the Stagehand browser engine, the LLM reached through
generateObject, the Browserbase debug-URL lookup) are modelled by a
deterministic oracle `Env`; a thrown exception or schema-validation failure is
an `Except.error`.  Every effectful fragment also records the trace of
external calls it makes, so that claims about "exactly one engine call" or
"no planning call" are provable.
-/

namespace OpenOperator

/-- A candidate interactable action surfaced by an OBSERVE call
(source: interface ActionObject in the navigate route). -/
structure ActionObject where
  description : String
  action : String
  selector : String
  arguments : List String
  deriving DecidableEq, Repr

/-- The observation payload attached to an executed OBSERVE step
(source: the observation field of BrowserStep, shape { actions }). -/
structure ObservationPayload where
  actions : List ActionObject
  deriving DecidableEq, Repr

/-- One planned / executed browser step (source: interface BrowserStep in the
navigate route).  The tool field is kept as a String: steps arrive in the
request body as JSON, so at runtime any string can occur there; the planner
output schema constrains planned tools to the seven known values. -/
structure BrowserStep where
  text : String
  reasoning : String
  tool : String
  instruction : String
  stepNumber : Option Nat := none
  utilityBoolean : Option Bool := none
  observation : Option ObservationPayload := none
  extraction : Option String := none
  deriving DecidableEq, Repr

instance : Inhabited BrowserStep :=
  ⟨{ text := "", reasoning := "", tool := "", instruction := "" }⟩

/-- A chat message (source: interface Message in types/message.ts, the
variant with conversationId and serialized observation/extraction). -/
structure Message where
  text : String
  role : String
  reasoning : Option String := none
  tool : Option String := none
  instruction : Option String := none
  stepNumber : Option Nat := none
  conversationId : Option String := none
  observation : Option String := none
  extraction : Option String := none
  deriving DecidableEq, Repr

/-- A live Stagehand handle (source: new Stagehand({ browserbaseSessionID,
env: BROWSERBASE })).  Only its identity matters to the orchestration core. -/
structure Stagehand where
  browserbaseSessionID : String
  deriving DecidableEq, Repr

/-- One call to an external collaborator. -/
inductive CallEvent where
  | goto (url : String)
  | actPrompt (instr : String)
  | actObject (a : ActionObject)
  | extract (instr : String)
  | observe (instr : String)
  | goBack
  | screenshot
  | close
  | initSession (sessionId : String)
  | llmStart (task : String)
  | llmNextStep (task : String) (historyLength : Nat)
  | llmFollowUp (task : String)
  | debugUrlLookup (sessionId : String)
  | waitMs (ms : Option Nat)
  deriving DecidableEq, Repr

/-- generateObject result schema for the START action (z.object with url and
reasoning, url constrained to be a valid URL). -/
structure StartDecision where
  url : String
  reasoning : String
  deriving DecidableEq, Repr

/-- generateObject result schema for GET_NEXT_STEP (text, reasoning, tool from
the closed enum, instruction, and a required utilityBoolean). -/
structure NextStepDecision where
  text : String
  reasoning : String
  tool : String
  instruction : String
  utilityBoolean : Bool
  deriving DecidableEq, Repr

/-- generateObject result schema for FOLLOW_UP_START; here utilityBoolean is
declared optional in the zod schema. -/
structure FollowUpDecision where
  text : String
  reasoning : String
  tool : String
  instruction : String
  utilityBoolean : Option Bool
  deriving DecidableEq, Repr

/-- Deterministic oracle for the external world: each field gives the outcome
of one kind of external call.  An Except.error models a thrown exception (for
the LLM fields: a schema-validation failure or service error inside
generateObject).  parseActionB models JSON.parse on a serialized
ActionObject. -/
structure Env where
  gotoB : String → Except String Unit
  actPromptB : String → Except String Unit
  actObjectB : ActionObject → Except String Unit
  extractB : String → Except String String
  observeB : String → Except String (List ActionObject)
  goBackB : Except String Unit
  screenshotB : Except String String
  closeB : Except String Unit
  initB : String → Except String Unit
  currentUrlB : String
  debugUrlB : String → Except String String
  startDecisionB : String → Except String StartDecision
  nextStepB : String → List BrowserStep → Except String NextStepDecision
  followUpB : String → List Message → Except String FollowUpDecision
  parseActionB : String → Except String ActionObject

/-- Result of an effectful fragment: the trace of external calls it made,
together with either its value or the error it threw. -/
abbrev Res (α : Type) : Type := List CallEvent × Except String α

namespace Res

def pure (a : α) : Res α := ([], Except.ok a)

def bind (x : Res α) (f : α → Res β) : Res β :=
  match x with
  | (tr, Except.error e) => (tr, Except.error e)
  | (tr, Except.ok a) =>
    let y := f a
    (tr ++ y.1, y.2)

end Res

instance : Monad Res where
  pure := Res.pure
  bind := Res.bind

/-- An external call: records the event and yields the oracle outcome. -/
def callE (e : CallEvent) (r : Except String α) : Res α := ([e], r)

/-- A pure computation that may throw (used for JSON.parse). -/
def liftExcept (r : Except String α) : Res α := ([], r)

/-- A thrown error with no external call. -/
def throwR (msg : String) : Res α := ([], Except.error msg)

theorem bind_eq (x : Res α) (f : α → Res β) : x >>= f = Res.bind x f := rfl

theorem pure_eq (a : α) : (Pure.pure a : Res α) = ([], Except.ok a) := rfl

theorem bind_mk_ok (tr : List CallEvent) (a : α) (f : α → Res β) :
    Res.bind (tr, Except.ok a) f = (tr ++ (f a).1, (f a).2) := rfl

theorem bind_mk_error (tr : List CallEvent) (e : String) (f : α → Res β) :
    Res.bind (tr, Except.error e) f = (tr, Except.error e) := rfl

def Env.goto (env : Env) (url : String) : Res Unit :=
  callE (CallEvent.goto url) (env.gotoB url)

def Env.actPrompt (env : Env) (instr : String) : Res Unit :=
  callE (CallEvent.actPrompt instr) (env.actPromptB instr)

def Env.actObject (env : Env) (a : ActionObject) : Res Unit :=
  callE (CallEvent.actObject a) (env.actObjectB a)

def Env.extract (env : Env) (instr : String) : Res String :=
  callE (CallEvent.extract instr) (env.extractB instr)

def Env.observe (env : Env) (instr : String) : Res (List ActionObject) :=
  callE (CallEvent.observe instr) (env.observeB instr)

def Env.goBack (env : Env) : Res Unit :=
  callE CallEvent.goBack env.goBackB

def Env.screenshot (env : Env) : Res String :=
  callE CallEvent.screenshot env.screenshotB

/-- JavaScript Number() applied to the WAIT instruction, restricted to plain
decimal numerals: some n for a digit string (0 for the empty string, as in
JavaScript), none for NaN on any non-numeric input.  setTimeout treats NaN
like 0, so the timeout fires immediately and never throws. -/
def jsNumber (s : String) : Option Nat :=
  if s.data.all Char.isDigit then
    some (s.data.foldl (fun n c => n * 10 + (c.toNat - 48)) 0)
  else
    none

/-- JavaScript truthiness of an optional string: undefined and the empty
string are falsy. -/
def falsyStr : Option String → Bool
  | none => true
  | Option.some s => s.isEmpty

/-- The result payload of handleExecuteStep (the object literals returned by
its switch branches). -/
structure ExecResult where
  success : Bool
  extraction : Option String := none
  observation : Option ObservationPayload := none
  done : Bool
  deriving DecidableEq, Repr

/-- The process-wide activeSessions map of the navigate route, keyed by
session id, with JavaScript Map semantics. -/
structure Registry where
  entries : List (String × Stagehand)
  deriving DecidableEq, Repr

namespace Registry

def get (reg : Registry) (id : String) : Option Stagehand :=
  go reg.entries
where go : List (String × Stagehand) → Option Stagehand
  | [] => none
  | (k, v) :: rest => if k = id then some v else go rest

def set (reg : Registry) (id : String) (h : Stagehand) : Registry :=
  ⟨go reg.entries⟩
where go : List (String × Stagehand) → List (String × Stagehand)
  | [] => [(id, h)]
  | (k, v) :: rest => if k = id then (k, h) :: rest else (k, v) :: go rest

def delete (reg : Registry) (id : String) : Registry :=
  ⟨go reg.entries⟩
where go : List (String × Stagehand) → List (String × Stagehand)
  | [] => []
  | (k, v) :: rest => if k = id then go rest else (k, v) :: go rest

theorem get_delete (reg : Registry) (id : String) :
    (reg.delete id).get id = none := by
  show Registry.get.go id (Registry.delete.go id reg.entries) = none
  induction reg.entries with
  | nil => rfl
  | cons p rest ih =>
    rcases p with ⟨k, v⟩
    by_cases hk : k = id
    · simpa [Registry.delete.go, hk] using ih
    · simpa [Registry.delete.go, Registry.get.go, hk] using ih

end Registry

/-- The parsed JSON body of a POST to the navigate route.  previousSteps and
previousMessages default to [] as in the destructuring in the source. -/
structure PostBody where
  sessionId : Option String := none
  task : Option String := none
  previousSteps : List BrowserStep := []
  action : Option String := none
  previousMessages : List Message := []
  step : Option BrowserStep := none
  actionObject : Option ActionObject := none
  deriving Repr

/-- A JSON response from the navigate route, with its HTTP status and the
union of the fields the different branches may set. -/
structure ApiResponse where
  status : Nat
  success : Bool
  error : Option String := none
  debugUrl : Option String := none
  result : Option BrowserStep := none
  steps : Option (List BrowserStep) := none
  done : Option Bool := none
  extraction : Option String := none
  observation : Option ObservationPayload := none
  text : Option String := none
  deriving DecidableEq, Repr

/-- fetch Response.ok: true for a 2xx status. -/
def ApiResponse.ok (r : ApiResponse) : Bool := 200 ≤ r.status && r.status < 300

namespace NavigateRoute

/-- source: getOrCreateStagehand in the navigate route.  Returns the
registered handle, or constructs and initializes a new one and registers it
(the Map.set runs only after init succeeds, so an init failure leaves the
registry unchanged). -/
def getOrCreateStagehand (env : Env) (reg : Registry) (sessionId : String) :
    Res (Stagehand × Registry) :=
  match reg.get sessionId with
  | some s => Res.pure (s, reg)
  | none => do
    let _ ← callE (CallEvent.initSession sessionId) (env.initB sessionId)
    let s : Stagehand := ⟨sessionId⟩
    Res.pure (s, reg.set sessionId s)

/-- source: getDebugUrl — the Browserbase live-view URL lookup. -/
def getDebugUrl (env : Env) (sessionId : String) : Res String :=
  callE (CallEvent.debugUrlLookup sessionId) (env.debugUrlB sessionId)

/-- source: handleStartAction.  Asks the LLM for a starting URL, builds the
first step with stepNumber 1, then navigates there (60 s timeout, waitUntil
commit) and returns the step. -/
def handleStartAction (env : Env) (task : String) : Res BrowserStep := do
  let d ← callE (CallEvent.llmStart task) (env.startDecisionB task)
  let firstStep : BrowserStep :=
    { text := "Navigating to " ++ d.url
      reasoning := d.reasoning
      tool := "GOTO"
      instruction := d.url
      stepNumber := some 1 }
  let _ ← env.goto d.url
  Res.pure firstStep

/-- source: handleGetNextStep.  Reads the current URL, captures a screenshot
through a CDP session, asks the LLM for the next step over the full prior
history, and stamps it with stepNumber = previousSteps.length + 1.  The
prompt text built from the history is abstracted into the oracle. -/
def handleGetNextStep (env : Env) (task : String)
    (previousSteps : List BrowserStep) : Res BrowserStep := do
  let _ ← env.screenshot
  let d ← callE (CallEvent.llmNextStep task previousSteps.length)
      (env.nextStepB task previousSteps)
  Res.pure
    { text := d.text
      reasoning := d.reasoning
      tool := d.tool
      instruction := d.instruction
      stepNumber := some (previousSteps.length + 1)
      utilityBoolean := some d.utilityBoolean }

/-- source: handleExecuteStep.  Tool dispatch of a single step against the
Stagehand handle.  The source signature also receives task and previousSteps
but never uses them.  The switch on step.tool is an equality dispatch on the
runtime string. -/
def handleExecuteStep (env : Env) (step : BrowserStep) : Res ExecResult :=
  if step.tool = "GOTO" then do
    let _ ← env.goto step.instruction
    Res.pure { success := true, done := false }
  else if step.tool = "ACT" then
    if step.utilityBoolean.getD false then do
      let action ← liftExcept (env.parseActionB step.instruction)
      let _ ← env.actObject action
      Res.pure { success := true, done := false }
    else do
      let _ ← env.actPrompt step.instruction
      Res.pure { success := true, done := false }
  else if step.tool = "EXTRACT" then do
    let extraction ← env.extract step.instruction
    Res.pure { success := true, extraction := some extraction, done := false }
  else if step.tool = "OBSERVE" then do
    let obs ← env.observe step.instruction
    if step.utilityBoolean.getD false then
      Res.pure { success := true, observation := some ⟨obs⟩, done := true }
    else
      Res.pure { success := true, observation := some ⟨obs⟩, done := false }
  else if step.tool = "WAIT" then do
    let _ ← callE (CallEvent.waitMs (jsNumber step.instruction)) (Except.ok ())
    Res.pure { success := true, done := false }
  else if step.tool = "NAVBACK" then do
    let _ ← env.goBack
    Res.pure { success := true, done := false }
  else if step.tool = "COMPLETE" then
    Res.pure { success := true, done := true }
  else
    throwR ("Unknown tool: " ++ step.tool)

/-- source: handleFollowUpStart.  Captures a screenshot, reads the current
URL, asks the LLM for a first step over the condensed prior conversation, and
stamps it with stepNumber 1. -/
def handleFollowUpStart (env : Env) (task : String)
    (previousMessages : List Message) : Res BrowserStep := do
  let _ ← env.screenshot
  let d ← callE (CallEvent.llmFollowUp task) (env.followUpB task previousMessages)
  Res.pure
    { text := d.text
      reasoning := d.reasoning
      tool := d.tool
      instruction := d.instruction
      stepNumber := some 1
      utilityBoolean := d.utilityBoolean }

/-- The 500 response produced by the outer catch of the navigate POST. -/
def failedResponse : ApiResponse :=
  { status := 500, success := false, error := some "Failed to process request" }

/-- Runs an effectful fragment under the outer try/catch of the navigate
POST: a thrown error becomes the 500 failedResponse, leaving the registry as
it was when the fragment started. -/
def respond (reg : Registry) (tr0 : List CallEvent) (x : Res α)
    (f : α → ApiResponse) : Registry × List CallEvent × ApiResponse :=
  match x with
  | (tr, Except.error _) => (reg, tr0 ++ tr, failedResponse)
  | (tr, Except.ok a) => (reg, tr0 ++ tr, f a)

/-- source: the POST handler of the navigate route.  Returns the final
registry, the trace of external calls made, and the JSON response.  Body
parsing (request.json()) is assumed to have succeeded: the function starts
from the parsed body. -/
def POST (env : Env) (reg : Registry) (body : PostBody) :
    Registry × List CallEvent × ApiResponse :=
  if falsyStr body.sessionId || falsyStr body.task then
    (reg, [],
      { status := 400, success := false, error := some "Missing required parameters" })
  else
    let sessionId := body.sessionId.getD ""
    let task := body.task.getD ""
    match getOrCreateStagehand env reg sessionId with
    | (tr, Except.error _) => (reg, tr, failedResponse)
    | (tr, Except.ok (_sh, reg1)) =>
      if body.action = some "START" then
        respond reg1 tr
          (do
            let debugUrl ← getDebugUrl env sessionId
            let firstStep ← handleStartAction env task
            Res.pure (debugUrl, firstStep))
          (fun p =>
            { status := 200, success := true, debugUrl := some p.1,
              result := some p.2, steps := some [p.2], done := some false })
      else if body.action = some "FOLLOW_UP_START" then
        respond reg1 tr (handleFollowUpStart env task body.previousMessages)
          (fun firstStep =>
            { status := 200, success := true, result := some firstStep,
              steps := some [firstStep], done := some false })
      else if body.action = some "GET_NEXT_STEP" then
        respond reg1 tr (handleGetNextStep env task body.previousSteps)
          (fun nextStep =>
            { status := 200, success := true, result := some nextStep,
              steps := some (body.previousSteps ++ [nextStep]),
              done := some (nextStep.tool == "COMPLETE") })
      else if body.action = some "EXECUTE_STEP" then
        match body.step with
        | none =>
          (reg1, tr,
            { status := 400, success := false,
              error := some "Missing step in request body" })
        | some step =>
          respond reg1 tr (handleExecuteStep env step)
            (fun r =>
              { status := 200, success := r.success, extraction := r.extraction,
                observation := r.observation, done := some r.done })
      else if body.action = some "EXECUTE_ACTION" then
        match body.actionObject with
        | none =>
          (reg1, tr,
            { status := 400, success := false,
              error := some "Missing required parameters" })
        | some a =>
          if falsyStr body.sessionId then
            (reg1, tr,
              { status := 400, success := false,
                error := some "Missing required parameters" })
          else
            -- inner try/catch with its own 500 message; the handle is
            -- already registered here, so the inner lookup cannot create
            match (do
                let p ← getOrCreateStagehand env reg1 sessionId
                let _ ← env.actObject a
                Res.pure p.2 : Res Registry) with
            | (tr2, Except.error _) =>
              (reg1, tr ++ tr2,
                { status := 500, success := false,
                  error := some "Failed to execute action" })
            | (tr2, Except.ok reg2) =>
              (reg2, tr ++ tr2,
                { status := 200, success := true,
                  text := some ("Executed action: " ++ a.description),
                  done := some false })
      else
        (reg1, tr,
          { status := 400, success := false, error := some "Invalid action type" })

/-- source: the DELETE handler of the navigate route.  Closes and evicts the
handle when present; a missing handle is a no-op success.  A close failure
hits the outer catch before the eviction. -/
def DELETE (env : Env) (reg : Registry) (sessionId : Option String) :
    Registry × List CallEvent × ApiResponse :=
  if falsyStr sessionId then
    (reg, [], { status := 400, success := false, error := some "Missing sessionId" })
  else
    let sid := sessionId.getD ""
    match reg.get sid with
    | none => (reg, [], { status := 200, success := true })
    | some _ =>
      match env.closeB with
      | Except.error _ =>
        (reg, [CallEvent.close],
          { status := 500, success := false, error := some "Failed to close session" })
      | Except.ok _ =>
        (reg.delete sid, [CallEvent.close], { status := 200, success := true })

end NavigateRoute

/-- A JSON response from the session route DELETE handler. -/
structure SessionDeleteResponse where
  status : Nat
  success : Bool
  error : Option String := none
  screenshot : Option String := none
  deriving DecidableEq, Repr

namespace SessionRoute

/-- source: the DELETE handler of the session route.  When a handle exists it
best-effort captures a final screenshot through CDP (a capture failure is
logged and swallowed, and an empty data string is JavaScript-falsy and also
discarded), then closes the handle and evicts it from the registry.  Releasing
an unregistered id is a no-op success with a null screenshot.  A close failure
hits the outer catch before the eviction. -/
def DELETE (env : Env) (reg : Registry) (sessionId : Option String) :
    Registry × List CallEvent × SessionDeleteResponse :=
  if falsyStr sessionId then
    (reg, [], { status := 400, success := false, error := some "Missing sessionId" })
  else
    let sid := sessionId.getD ""
    match reg.get sid with
    | none => (reg, [], { status := 200, success := true, screenshot := none })
    | some _ =>
      let screenshotData : Option String :=
        match env.screenshotB with
        | Except.ok data => if data.isEmpty then none else some data
        | Except.error _ => none
      match env.closeB with
      | Except.error _ =>
        (reg, [CallEvent.screenshot, CallEvent.close],
          { status := 500, success := false, error := some "Failed to close session" })
      | Except.ok _ =>
        (reg.delete sid, [CallEvent.screenshot, CallEvent.close],
          { status := 200, success := true, screenshot := screenshotData })

end SessionRoute

/-- Replace the last element of a list (source: steps.map((step, idx) =>
idx === steps.length - 1 ? updatedStep : step)). -/
def replaceLast : List α → α → List α
  | [], _ => []
  | [_], a => [a]
  | x :: y :: rest, a => x :: replaceLast (y :: rest) a

namespace Page

/-- How one client-side agent run ends (for one invocation of handleSubmit or
handleFollowUp).  completed: the planner chose COMPLETE.  suspendedOrDone: the
break on (OBSERVE with utilityBoolean) or executeData.done — the OBSERVE case
is the user-choice suspension.  failed: a fetch returned a non-ok response and
the client threw. -/
inductive RunExit where
  | completed
  | suspendedOrDone
  | failed (msg : String)
  deriving DecidableEq, Repr

/-- The client-side loop state: the server-side registry as seen across
fetches, the accumulated agentStateRef.current.steps, and the trace of all
external calls the server made on the client's behalf. -/
structure LoopState where
  reg : Registry
  steps : List BrowserStep
  trace : List CallEvent
  deriving Repr

/-- One iteration of the while(true) loop in handleSubmit: GET_NEXT_STEP,
stamp the step with steps.length + 1 client-side, append it, stop on
COMPLETE, otherwise EXECUTE_STEP, fold the execution results into the last
step, and stop on (OBSERVE with utilityBoolean) or executeData.done. -/
def submitIter (env : Env) (sessionId task : String) (st : LoopState) :
    LoopState × Option RunExit :=
  let r1 := NavigateRoute.POST env st.reg
    { sessionId := some sessionId, task := some task,
      previousSteps := st.steps, action := some "GET_NEXT_STEP" }
  let st1 : LoopState := { reg := r1.1, steps := st.steps, trace := st.trace ++ r1.2.1 }
  if ¬ r1.2.2.ok then (st1, some (RunExit.failed "Failed to get next step"))
  else
    let nextStep : BrowserStep :=
      { r1.2.2.result.getD default with stepNumber := some (st.steps.length + 1) }
    let st2 : LoopState := { st1 with steps := st.steps ++ [nextStep] }
    if nextStep.tool == "COMPLETE" then (st2, some RunExit.completed)
    else
      let r2 := NavigateRoute.POST env st2.reg
        { sessionId := some sessionId, task := some task,
          step := r1.2.2.result, action := some "EXECUTE_STEP" }
      let st3 : LoopState := { st2 with reg := r2.1, trace := st2.trace ++ r2.2.1 }
      if ¬ r2.2.2.ok then (st3, some (RunExit.failed "Failed to execute step"))
      else
        let updatedStep : BrowserStep :=
          { nextStep with observation := r2.2.2.observation,
                          extraction := r2.2.2.extraction }
        let st4 : LoopState := { st3 with steps := replaceLast st2.steps updatedStep }
        if (nextStep.tool == "OBSERVE" && nextStep.utilityBoolean.getD false)
            || r2.2.2.done.getD false then
          (st4, some RunExit.suspendedOrDone)
        else (st4, none)

/-- The while(true) loop of handleSubmit, bounded by fuel.  The source loop
has no step cap, so exhausting the fuel returns no exit. -/
def submitLoop (env : Env) (sessionId task : String) :
    Nat → LoopState → LoopState × Option RunExit
  | 0, st => (st, none)
  | fuel + 1, st =>
    match submitIter env sessionId task st with
    | (st1, some ex) => (st1, some ex)
    | (st1, none) => submitLoop env sessionId task fuel st1

/-- source: handleSubmit in page.tsx.  The /api/session call that creates the
Browserbase session is abstracted: the fresh session id is a parameter.
Issues START, seeds the step history from the response, and runs the
GET_NEXT_STEP / EXECUTE_STEP loop. -/
def runSubmit (env : Env) (reg : Registry) (sessionId task : String)
    (fuel : Nat) : LoopState × Option RunExit :=
  let r := NavigateRoute.POST env reg
    { sessionId := some sessionId, task := some task, action := some "START" }
  if ¬ r.2.2.ok then
    ({ reg := r.1, steps := [], trace := r.2.1 },
      some (RunExit.failed "Failed to start agent"))
  else
    let steps0 := r.2.2.steps.getD []
    submitLoop env sessionId task fuel { reg := r.1, steps := steps0, trace := r.2.1 }

/-- One iteration of the while(true) loop in handleFollowUp.  Identical to
submitIter except for the break condition, which here tests only
executeData.done. -/
def followUpIter (env : Env) (sessionId task : String) (st : LoopState) :
    LoopState × Option RunExit :=
  let r1 := NavigateRoute.POST env st.reg
    { sessionId := some sessionId, task := some task,
      previousSteps := st.steps, action := some "GET_NEXT_STEP" }
  let st1 : LoopState := { reg := r1.1, steps := st.steps, trace := st.trace ++ r1.2.1 }
  if ¬ r1.2.2.ok then (st1, some (RunExit.failed "Failed to get next step"))
  else
    let nextStep : BrowserStep :=
      { r1.2.2.result.getD default with stepNumber := some (st.steps.length + 1) }
    let st2 : LoopState := { st1 with steps := st.steps ++ [nextStep] }
    if nextStep.tool == "COMPLETE" then (st2, some RunExit.completed)
    else
      let r2 := NavigateRoute.POST env st2.reg
        { sessionId := some sessionId, task := some task,
          step := r1.2.2.result, action := some "EXECUTE_STEP" }
      let st3 : LoopState := { st2 with reg := r2.1, trace := st2.trace ++ r2.2.1 }
      if ¬ r2.2.2.ok then (st3, some (RunExit.failed "Failed to execute step"))
      else
        let updatedStep : BrowserStep :=
          { nextStep with observation := r2.2.2.observation,
                          extraction := r2.2.2.extraction }
        let st4 : LoopState := { st3 with steps := replaceLast st2.steps updatedStep }
        if r2.2.2.done.getD false then (st4, some RunExit.suspendedOrDone)
        else (st4, none)

/-- The while(true) loop of handleFollowUp, bounded by fuel. -/
def followUpLoop (env : Env) (sessionId task : String) :
    Nat → LoopState → LoopState × Option RunExit
  | 0, st => (st, none)
  | fuel + 1, st =>
    match followUpIter env sessionId task st with
    | (st1, some ex) => (st1, some ex)
    | (st1, none) => followUpLoop env sessionId task fuel st1

/-- source: handleFollowUp in page.tsx.  Resets the step history, issues
FOLLOW_UP_START, executes the returned first step immediately when its tool
is not COMPLETE (returning early when that execution reports done), then runs
the follow-up loop. -/
def runFollowUp (env : Env) (reg : Registry) (sessionId task : String)
    (previousMessages : List Message) (fuel : Nat) : LoopState × Option RunExit :=
  let r := NavigateRoute.POST env reg
    { sessionId := some sessionId, task := some task,
      action := some "FOLLOW_UP_START", previousMessages := previousMessages }
  if ¬ r.2.2.ok then
    ({ reg := r.1, steps := [], trace := r.2.1 },
      some (RunExit.failed "Failed to start follow-up"))
  else
    let result := r.2.2.result.getD default
    let st0 : LoopState := { reg := r.1, steps := [result], trace := r.2.1 }
    if result.tool ≠ "COMPLETE" then
      let r2 := NavigateRoute.POST env st0.reg
        { sessionId := some sessionId, task := some task,
          step := r.2.2.result, action := some "EXECUTE_STEP" }
      let st1 : LoopState := { st0 with reg := r2.1, trace := st0.trace ++ r2.2.1 }
      if ¬ r2.2.2.ok then (st1, some (RunExit.failed "Failed to execute step"))
      else
        let updatedStep : BrowserStep :=
          { result with observation := r2.2.2.observation,
                        extraction := r2.2.2.extraction }
        let st2 : LoopState := { st1 with steps := [updatedStep] }
        if r2.2.2.done.getD false then (st2, some RunExit.suspendedOrDone)
        else followUpLoop env sessionId task fuel st2
    else
      followUpLoop env sessionId task fuel st0

/-- The outcome of the resume entry point handleExecuteAction: the chat
messages, the completion flag, and the server-side registry and trace. -/
structure ExecuteActionOutcome where
  messages : List Message
  isAgentComplete : Bool
  reg : Registry
  trace : List CallEvent
  deriving Repr

/-- source: handleExecuteAction in page.tsx — the resume entry point after an
OBSERVE suspension.  Appends the user's selection message, POSTs
EXECUTE_ACTION for one act against the chosen descriptor, then appends the
server's text (or a fixed error text) and marks the agent complete. -/
def handleExecuteAction (env : Env) (reg : Registry) (sessionId : String)
    (messages : List Message) (a : ActionObject) : ExecuteActionOutcome :=
  let userMsg : Message :=
    { text := "Selected action: " ++ a.description, role := "user",
      conversationId := some sessionId }
  let r := NavigateRoute.POST env reg
    { sessionId := some sessionId, task := some "Executing selected action",
      action := some "EXECUTE_ACTION", actionObject := some a }
  if r.2.2.ok then
    { messages := messages ++ [userMsg] ++
        [{ text := r.2.2.text.getD "", role := "agent",
           conversationId := some sessionId }],
      isAgentComplete := true, reg := r.1, trace := r.2.1 }
  else
    { messages := messages ++ [userMsg] ++
        [{ text := "Failed to execute action. Please try again.", role := "agent",
           conversationId := some sessionId }],
      isAgentComplete := true, reg := r.1, trace := r.2.1 }

end Page

/-- The step history carries stepNumber values 1, 2, ..., N in order. -/
def numbered (steps : List BrowserStep) : Prop :=
  ∀ i, (h : i < steps.length) → (steps.get ⟨i, h⟩).stepNumber = some (i + 1)

instance (steps : List BrowserStep) : Decidable (numbered steps) := by
  unfold numbered
  infer_instance

theorem numbered_nil : numbered [] := by
  intro i h
  simp at h

theorem numbered_singleton (s : BrowserStep) (hs : s.stepNumber = some 1) :
    numbered [s] := by
  intro i h
  simp at h
  subst h
  simpa using hs

theorem numbered_append (xs : List BrowserStep) (s : BrowserStep)
    (hxs : numbered xs) (hs : s.stepNumber = some (xs.length + 1)) :
    numbered (xs ++ [s]) := by
  intro i h
  simp only [List.get_eq_getElem]
  rcases Nat.lt_or_ge i xs.length with hi | hi
  · rw [List.getElem_append_left hi]
    have := hxs i hi
    simpa using this
  · have hlen : i = xs.length := by
      simp at h
      omega
    subst hlen
    simp [hs]

theorem replaceLast_length (xs : List α) (a : α) :
    (replaceLast xs a).length = xs.length := by
  induction xs with
  | nil => rfl
  | cons x rest ih =>
    cases rest with
    | nil => rfl
    | cons y t => simpa [replaceLast] using ih

theorem replaceLast_get (xs : List α) (a : α) (i : Nat) (h : i < xs.length)
    (h2 : i < (replaceLast xs a).length) :
    (replaceLast xs a).get ⟨i, h2⟩ =
      if i = xs.length - 1 then a else xs.get ⟨i, h⟩ := by
  induction xs generalizing i with
  | nil => simp at h
  | cons x rest ih =>
    cases rest with
    | nil =>
      simp at h
      subst h
      simp [replaceLast]
    | cons y t =>
      cases i with
      | zero => simp [replaceLast]
      | succ j =>
        have hj : j < (y :: t).length := by simpa using h
        have hj2 : j < (replaceLast (y :: t) a).length := by
          rw [replaceLast_length]; exact hj
        have hrec := ih j hj hj2
        simp only [replaceLast, List.get_cons_succ]
        rw [hrec]
        by_cases hc : j = t.length
        · simp [hc]
        · have hc2 : ¬ (j + 1 = t.length + 1) := by omega
          simp only [List.length_cons]
          rw [if_neg (by omega), if_neg (by omega)]

theorem numbered_replaceLast (xs : List BrowserStep) (a : BrowserStep)
    (hxs : numbered xs) (ha : a.stepNumber = some xs.length) :
    numbered (replaceLast xs a) := by
  intro i h
  have hlen : i < xs.length := by rwa [replaceLast_length] at h
  rw [replaceLast_get xs a i hlen h]
  by_cases hi : i = xs.length - 1
  · rw [if_pos hi, ha]
    have hx : xs.length = i + 1 := by omega
    rw [hx]
  · rw [if_neg hi]
    exact hxs i hlen



theorem submitIter_numbered (env : Env) (sid task : String) (st : Page.LoopState)
    (h : numbered st.steps) :
    numbered (Page.submitIter env sid task st).1.steps := by
  unfold Page.submitIter
  dsimp only
  split
  · exact h
  · split
    · exact numbered_append st.steps _ h rfl
    · split
      · exact numbered_append st.steps _ h rfl
      · split
        · apply numbered_replaceLast
          · exact numbered_append st.steps _ h rfl
          · simp
        · apply numbered_replaceLast
          · exact numbered_append st.steps _ h rfl
          · simp

theorem submitLoop_numbered (env : Env) (sid task : String) (fuel : Nat)
    (st : Page.LoopState) (h : numbered st.steps) :
    numbered (Page.submitLoop env sid task fuel st).1.steps := by
  induction fuel generalizing st with
  | zero => exact h
  | succ n ih =>
    unfold Page.submitLoop
    rcases hit : Page.submitIter env sid task st with ⟨st1, ex⟩
    have h1 : numbered st1.steps := by
      have := submitIter_numbered env sid task st h
      rwa [hit] at this
    cases ex with
    | none => exact ih st1 h1
    | some e => exact h1

theorem handleStartAction_shape (env : Env) (task : String)
    (tr : List CallEvent) (step : BrowserStep)
    (h : NavigateRoute.handleStartAction env task = (tr, Except.ok step)) :
    step.stepNumber = some 1 ∧ step.tool = "GOTO" := by
  unfold NavigateRoute.handleStartAction at h
  rcases hd : env.startDecisionB task with e | d
  · simp [bind_eq, Res.bind, callE, hd] at h
  · rcases hg : env.gotoB d.url with e2 | u
    · simp [bind_eq, Res.bind, callE, hd, Env.goto, hg] at h
    · simp [bind_eq, Res.bind, callE, hd, Env.goto, hg, Res.pure] at h
      rcases h with ⟨h1, h2⟩
      subst h2
      exact ⟨rfl, rfl⟩


theorem handleFollowUpStart_shape (env : Env) (task : String) (msgs : List Message)
    (tr : List CallEvent) (step : BrowserStep)
    (h : NavigateRoute.handleFollowUpStart env task msgs = (tr, Except.ok step)) :
    step.stepNumber = some 1 := by
  unfold NavigateRoute.handleFollowUpStart at h
  rcases hs : env.screenshotB with e | d
  · simp [bind_eq, Res.bind, callE, Env.screenshot, hs] at h
  · rcases hd : env.followUpB task msgs with e2 | d2
    · simp [bind_eq, Res.bind, callE, Env.screenshot, hs, hd] at h
    · simp [bind_eq, Res.bind, callE, Env.screenshot, hs, hd, Res.pure] at h
      rcases h with ⟨h1, h2⟩
      subst h2
      rfl

theorem POST_START_numbered (env : Env) (reg : Registry) (body : PostBody)
    (ha : body.action = some "START")
    (hok : (NavigateRoute.POST env reg body).2.2.ok = true) :
    numbered ((NavigateRoute.POST env reg body).2.2.steps.getD []) := by
  rcases hf : falsyStr body.sessionId || falsyStr body.task with _ | _
  · rcases hg : NavigateRoute.getOrCreateStagehand env reg (body.sessionId.getD "")
      with ⟨tr, e | ⟨sh, reg1⟩⟩
    · simp [NavigateRoute.POST, hf, hg, ApiResponse.ok,
        NavigateRoute.failedResponse] at hok
    · rcases hdbg : env.debugUrlB (body.sessionId.getD "") with e2 | dbg
      · simp [NavigateRoute.POST, hf, hg, ha, NavigateRoute.respond, bind_eq,
          Res.bind, callE, NavigateRoute.getDebugUrl, hdbg, ApiResponse.ok,
          NavigateRoute.failedResponse] at hok
      · rcases hS : NavigateRoute.handleStartAction env (body.task.getD "")
          with ⟨trS, eS | step⟩
        · simp [NavigateRoute.POST, hf, hg, ha, NavigateRoute.respond, bind_eq,
            Res.bind, callE, NavigateRoute.getDebugUrl, hdbg, hS, ApiResponse.ok,
            NavigateRoute.failedResponse] at hok
        · have hshape := handleStartAction_shape env (body.task.getD "") trS step hS
          simp [NavigateRoute.POST, hf, hg, ha, NavigateRoute.respond, bind_eq,
            Res.bind, callE, NavigateRoute.getDebugUrl, hdbg, hS, Res.pure]
          exact numbered_singleton step hshape.1
  · simp [NavigateRoute.POST, hf, ApiResponse.ok] at hok

theorem POST_FOLLOW_UP_result (env : Env) (reg : Registry) (body : PostBody)
    (ha : body.action = some "FOLLOW_UP_START")
    (hok : (NavigateRoute.POST env reg body).2.2.ok = true) :
    ((NavigateRoute.POST env reg body).2.2.result.getD default).stepNumber = some 1 := by
  rcases hf : falsyStr body.sessionId || falsyStr body.task with _ | _
  · rcases hg : NavigateRoute.getOrCreateStagehand env reg (body.sessionId.getD "")
      with ⟨tr, e | ⟨sh, reg1⟩⟩
    · simp [NavigateRoute.POST, hf, hg, ApiResponse.ok,
        NavigateRoute.failedResponse] at hok
    · rcases hS : NavigateRoute.handleFollowUpStart env (body.task.getD "")
        body.previousMessages with ⟨trS, eS | step⟩
      · simp [NavigateRoute.POST, hf, hg, ha, NavigateRoute.respond, hS,
          ApiResponse.ok, NavigateRoute.failedResponse] at hok
      · have hshape := handleFollowUpStart_shape env (body.task.getD "")
          body.previousMessages trS step hS
        simp [NavigateRoute.POST, hf, hg, ha, NavigateRoute.respond, hS]
        exact hshape
  · simp [NavigateRoute.POST, hf, ApiResponse.ok] at hok


theorem followUpIter_numbered (env : Env) (sid task : String) (st : Page.LoopState)
    (h : numbered st.steps) :
    numbered (Page.followUpIter env sid task st).1.steps := by
  unfold Page.followUpIter
  dsimp only
  split
  · exact h
  · split
    · exact numbered_append st.steps _ h rfl
    · split
      · exact numbered_append st.steps _ h rfl
      · split
        · apply numbered_replaceLast
          · exact numbered_append st.steps _ h rfl
          · simp
        · apply numbered_replaceLast
          · exact numbered_append st.steps _ h rfl
          · simp

theorem followUpLoop_numbered (env : Env) (sid task : String) (fuel : Nat)
    (st : Page.LoopState) (h : numbered st.steps) :
    numbered (Page.followUpLoop env sid task fuel st).1.steps := by
  induction fuel generalizing st with
  | zero => exact h
  | succ n ih =>
    unfold Page.followUpLoop
    rcases hit : Page.followUpIter env sid task st with ⟨st1, ex⟩
    have h1 : numbered st1.steps := by
      have := followUpIter_numbered env sid task st h
      rwa [hit] at this
    cases ex with
    | none => exact ih st1 h1
    | some e => exact h1

theorem runSubmit_numbered (env : Env) (reg : Registry) (sid task : String)
    (fuel : Nat) :
    numbered (Page.runSubmit env reg sid task fuel).1.steps := by
  unfold Page.runSubmit
  dsimp only
  split
  · exact numbered_nil
  · next hok =>
    apply submitLoop_numbered
    have hok2 : (NavigateRoute.POST env reg
        { sessionId := some sid, task := some task,
          action := some "START" }).2.2.ok = true := by
      rcases hb : (NavigateRoute.POST env reg
        { sessionId := some sid, task := some task,
          action := some "START" }).2.2.ok with _ | _
      · rw [hb] at hok
        simp at hok
      · rfl
    exact POST_START_numbered env reg _ rfl hok2

theorem runFollowUp_numbered (env : Env) (reg : Registry) (sid task : String)
    (msgs : List Message) (fuel : Nat) :
    numbered (Page.runFollowUp env reg sid task msgs fuel).1.steps := by
  unfold Page.runFollowUp
  dsimp only
  split
  · exact numbered_nil
  · next hok =>
    have hok2 : (NavigateRoute.POST env reg
        { sessionId := some sid, task := some task,
          action := some "FOLLOW_UP_START",
          previousMessages := msgs }).2.2.ok = true := by
      rcases hb : (NavigateRoute.POST env reg
        { sessionId := some sid, task := some task,
          action := some "FOLLOW_UP_START",
          previousMessages := msgs }).2.2.ok with _ | _
      · rw [hb] at hok
        simp at hok
      · rfl
    have hres := POST_FOLLOW_UP_result env reg _ rfl hok2
    have hsingle : numbered [(NavigateRoute.POST env reg
        { sessionId := some sid, task := some task,
          action := some "FOLLOW_UP_START",
          previousMessages := msgs }).2.2.result.getD default] :=
      numbered_singleton _ hres
    split
    · split
      · exact hsingle
      · split
        · exact numbered_singleton _ hres
        · apply followUpLoop_numbered
          exact numbered_singleton _ hres
    · exact followUpLoop_numbered _ _ _ _ _ hsingle


theorem isEmpty_false_of_ne (s : String) (h : s ≠ "") : s.isEmpty = false := by
  rcases hb : s.isEmpty with _ | _
  · rfl
  · exact absurd ((String.isEmpty_iff s).mp hb) h

theorem falsyStr_some_ne (s : String) (h : s ≠ "") : falsyStr (some s) = false := by
  simp [falsyStr, isEmpty_false_of_ne s h]



/-- An oracle on which every external call succeeds with a fixed value; used
to evaluate the handlers on concrete inputs. -/
def okEnv : Env where
  gotoB := fun _ => Except.ok ()
  actPromptB := fun _ => Except.ok ()
  actObjectB := fun _ => Except.ok ()
  extractB := fun _ => Except.ok "data"
  observeB := fun _ => Except.ok []
  goBackB := Except.ok ()
  screenshotB := Except.ok "img"
  closeB := Except.ok ()
  initB := fun _ => Except.ok ()
  currentUrlB := "https://example.com"
  debugUrlB := fun _ => Except.ok "https://debug.example"
  startDecisionB := fun _ => Except.ok ⟨"https://example.com", "start here"⟩
  nextStepB := fun _ _ => Except.ok ⟨"All done", "goal met", "COMPLETE", "", false⟩
  followUpB := fun _ _ => Except.ok ⟨"All done", "goal met", "COMPLETE", "", none⟩
  parseActionB := fun _ => Except.error "Unexpected token in JSON"

/-- C2: for every executed OBSERVE step whose engine enumeration succeeds, the
executor returns exactly the ActionObject list enumerated by the engine, and
the done flag is true precisely when the step's utilityBoolean
(waitForUserChoice) is true; with the flag false the result is done=false. -/
theorem c2_observe_returns_actions_done_iff_choice (env : Env) (step : BrowserStep)
    (acts : List ActionObject)
    (htool : step.tool = "OBSERVE")
    (hobs : env.observeB step.instruction = Except.ok acts) :
    NavigateRoute.handleExecuteStep env step =
      ([CallEvent.observe step.instruction],
        Except.ok { success := true, extraction := none,
                    observation := some ⟨acts⟩,
                    done := step.utilityBoolean.getD false }) ∧
    (step.utilityBoolean.getD false = true ↔ step.utilityBoolean = some true) := by
  constructor
  · simp [NavigateRoute.handleExecuteStep, htool, bind_eq, Res.bind, Env.observe,
      callE, hobs, Res.pure]
    rcases step.utilityBoolean.getD false with _ | _ <;> simp [Res.pure]
  · rcases step.utilityBoolean with _ | b
    · simp
    · rcases b with _ | _ <;> simp

/-- Witness for C2 at a concrete OBSERVE step with waitForUserChoice true. -/
theorem c2_witness :
    ({ text := "t", reasoning := "r", tool := "OBSERVE",
       instruction := "find the buttons",
       utilityBoolean := some true } : BrowserStep).tool = "OBSERVE" ∧
    okEnv.observeB "find the buttons" = Except.ok [] ∧
    (NavigateRoute.handleExecuteStep okEnv
        { text := "t", reasoning := "r", tool := "OBSERVE",
          instruction := "find the buttons", utilityBoolean := some true } =
      ([CallEvent.observe "find the buttons"],
        Except.ok { success := true, extraction := none,
                    observation := some ⟨[]⟩, done := true }) ∧
      ((some true : Option Bool).getD false = true ↔
        (some true : Option Bool) = some true)) :=
  ⟨rfl, rfl,
    c2_observe_returns_actions_done_iff_choice okEnv _ [] rfl rfl⟩

/-- C8: a POST to the navigate route with a missing (or empty, hence
JavaScript-falsy) sessionId or task is rejected with a 400 response before any
session work: the registry is unchanged and no external call at all — in
particular no Stagehand construction or init — is made. -/
theorem c8_validation_precedes_session_work (env : Env) (reg : Registry)
    (body : PostBody)
    (h : (falsyStr body.sessionId || falsyStr body.task) = true) :
    NavigateRoute.POST env reg body =
      (reg, [],
        { status := 400, success := false,
          error := some "Missing required parameters" }) := by
  simp [NavigateRoute.POST, h]

/-- Witness for C8: a body with a task but no sessionId. -/
theorem c8_witness :
    (falsyStr (PostBody.sessionId { task := some "find cats" }) ||
      falsyStr (PostBody.task { task := some "find cats" })) = true ∧
    NavigateRoute.POST okEnv ⟨[]⟩ { task := some "find cats" } =
      (⟨[]⟩, [],
        { status := 400, success := false,
          error := some "Missing required parameters" }) :=
  ⟨rfl, c8_validation_precedes_session_work okEnv ⟨[]⟩ _ rfl⟩

/-- C9: the WAIT branch of the executor is total — for every instruction
string it returns success with done=false and throws nothing; the recorded
delay is Number(instruction), which is NaN (modelled as none, firing
immediately) on non-numeric input. -/
theorem c9_wait_total (env : Env) (step : BrowserStep)
    (htool : step.tool = "WAIT") :
    NavigateRoute.handleExecuteStep env step =
      ([CallEvent.waitMs (jsNumber step.instruction)],
        Except.ok { success := true, extraction := none,
                    observation := none, done := false }) := by
  simp [NavigateRoute.handleExecuteStep, htool, bind_eq, Res.bind, callE, Res.pure]

/-- Witness for C9 at a non-numeric WAIT instruction: Number gives NaN and the
step still succeeds. -/
theorem c9_witness :
    ({ text := "t", reasoning := "r", tool := "WAIT",
       instruction := "soon" } : BrowserStep).tool = "WAIT" ∧
    jsNumber "soon" = none ∧
    NavigateRoute.handleExecuteStep okEnv
        { text := "t", reasoning := "r", tool := "WAIT", instruction := "soon" } =
      ([CallEvent.waitMs (jsNumber "soon")],
        Except.ok { success := true, extraction := none,
                    observation := none, done := false }) :=
  ⟨rfl, by decide, c9_wait_total okEnv _ rfl⟩


/-- C10: a step whose tool is outside the seven known values (for example the
legacy SUMMARIZE of the older route's step type) makes the executor throw an
Unknown tool error, and an EXECUTE_STEP request carrying it surfaces as the
500 failure response — never as a silent successful no-op. -/
theorem c10_unknown_tool_throws (env : Env) (reg : Registry) (body : PostBody)
    (step : BrowserStep) (sh : Stagehand)
    (htool : step.tool ∉
      (["GOTO", "ACT", "EXTRACT", "OBSERVE", "WAIT", "NAVBACK", "COMPLETE"] :
        List String))
    (hsid : falsyStr body.sessionId = false) (htask : falsyStr body.task = false)
    (haction : body.action = some "EXECUTE_STEP") (hstep : body.step = some step)
    (hreg : reg.get (body.sessionId.getD "") = some sh) :
    NavigateRoute.handleExecuteStep env step =
      ([], Except.error ("Unknown tool: " ++ step.tool)) ∧
    NavigateRoute.POST env reg body = (reg, [], NavigateRoute.failedResponse) := by
  simp only [List.mem_cons, List.not_mem_nil, or_false, not_or] at htool
  obtain ⟨h1, h2, h3, h4, h5, h6, h7⟩ := htool
  have hexec : NavigateRoute.handleExecuteStep env step =
      ([], Except.error ("Unknown tool: " ++ step.tool)) := by
    simp [NavigateRoute.handleExecuteStep, h1, h2, h3, h4, h5, h6, h7, throwR]
  refine ⟨hexec, ?_⟩
  simp [NavigateRoute.POST, hsid, htask, haction, hstep,
    NavigateRoute.getOrCreateStagehand, hreg, Res.pure, NavigateRoute.respond,
    hexec, NavigateRoute.failedResponse]

/-- Witness for C10 at a SUMMARIZE step on a registered session. -/
theorem c10_witness :
    (({ text := "t", reasoning := "r", tool := "SUMMARIZE",
        instruction := "sum up" } : BrowserStep).tool ∉
      (["GOTO", "ACT", "EXTRACT", "OBSERVE", "WAIT", "NAVBACK", "COMPLETE"] :
        List String)) ∧
    (NavigateRoute.handleExecuteStep okEnv
        { text := "t", reasoning := "r", tool := "SUMMARIZE",
          instruction := "sum up" } =
      ([], Except.error ("Unknown tool: " ++ "SUMMARIZE")) ∧
    NavigateRoute.POST okEnv ⟨[("sess-1", ⟨"sess-1"⟩)]⟩
        { sessionId := some "sess-1", task := some "find cats",
          action := some "EXECUTE_STEP",
          step := some { text := "t", reasoning := "r", tool := "SUMMARIZE",
                         instruction := "sum up" } } =
      (⟨[("sess-1", ⟨"sess-1"⟩)]⟩, [], NavigateRoute.failedResponse)) :=
  ⟨by decide,
    c10_unknown_tool_throws okEnv ⟨[("sess-1", ⟨"sess-1"⟩)]⟩ _ _ ⟨"sess-1"⟩
      (by decide) rfl rfl rfl rfl rfl⟩

/-- C4: when a single step's execution throws, the POST handler surfaces the
500 failure response and leaves the registry exactly as it was: the handle for
the session id stays registered, and a subsequent lookup still returns it —
the browser session is neither closed nor evicted by the step failure. -/
theorem c4_session_survives_step_failure (env : Env) (reg : Registry)
    (body : PostBody) (step : BrowserStep) (sh : Stagehand) (msg : String)
    (hsid : falsyStr body.sessionId = false) (htask : falsyStr body.task = false)
    (haction : body.action = some "EXECUTE_STEP") (hstep : body.step = some step)
    (hreg : reg.get (body.sessionId.getD "") = some sh)
    (hfail : (NavigateRoute.handleExecuteStep env step).2 = Except.error msg) :
    NavigateRoute.POST env reg body =
      (reg, (NavigateRoute.handleExecuteStep env step).1,
        NavigateRoute.failedResponse) ∧
    NavigateRoute.getOrCreateStagehand env reg (body.sessionId.getD "") =
      ([], Except.ok (sh, reg)) := by
  constructor
  · rcases hx : NavigateRoute.handleExecuteStep env step with ⟨tr, r⟩
    rw [hx] at hfail
    simp only at hfail
    subst hfail
    simp [NavigateRoute.POST, hsid, htask, haction, hstep,
      NavigateRoute.getOrCreateStagehand, hreg, Res.pure, NavigateRoute.respond,
      hx]
  · simp [NavigateRoute.getOrCreateStagehand, hreg, Res.pure]

/-- Witness for C4: a GOTO step whose navigation times out on a registered
session. -/
theorem c4_witness :
    falsyStr (some "sess-1") = false ∧
    falsyStr (some "visit example") = false ∧
    Registry.get ⟨[("sess-1", ⟨"sess-1"⟩)]⟩ "sess-1" = some ⟨"sess-1"⟩ ∧
    (NavigateRoute.handleExecuteStep
        { okEnv with gotoB := fun _ => Except.error "net::TIMEOUT" }
        { text := "t", reasoning := "r", tool := "GOTO",
          instruction := "https://slow.example" }).2 =
      Except.error "net::TIMEOUT" ∧
    (NavigateRoute.POST { okEnv with gotoB := fun _ => Except.error "net::TIMEOUT" }
        ⟨[("sess-1", ⟨"sess-1"⟩)]⟩
        { sessionId := some "sess-1", task := some "visit example",
          action := some "EXECUTE_STEP",
          step := some { text := "t", reasoning := "r", tool := "GOTO",
                         instruction := "https://slow.example" } } =
      (⟨[("sess-1", ⟨"sess-1"⟩)]⟩,
        (NavigateRoute.handleExecuteStep
          { okEnv with gotoB := fun _ => Except.error "net::TIMEOUT" }
          { text := "t", reasoning := "r", tool := "GOTO",
            instruction := "https://slow.example" }).1,
        NavigateRoute.failedResponse) ∧
    NavigateRoute.getOrCreateStagehand
        { okEnv with gotoB := fun _ => Except.error "net::TIMEOUT" }
        ⟨[("sess-1", ⟨"sess-1"⟩)]⟩ "sess-1" =
      ([], Except.ok (⟨"sess-1"⟩, ⟨[("sess-1", ⟨"sess-1"⟩)]⟩))) := by
  refine ⟨rfl, rfl, rfl, ?hx, ?_⟩
  case hx =>
    simp [NavigateRoute.handleExecuteStep, bind_eq, Res.bind, Env.goto, callE]
  case _ =>
    exact c4_session_survives_step_failure _ _ _ _ ⟨"sess-1"⟩ "net::TIMEOUT"
      rfl rfl rfl rfl rfl
      (by simp [NavigateRoute.handleExecuteStep, bind_eq, Res.bind, Env.goto, callE])


/-- C5: resuming a suspended run through handleExecuteAction on a registered
session performs exactly one engine act against the chosen ActionObject — the
whole trace is that single call, so no planning (LLM) call happens — appends
the user's selection and the final agent message reporting the executed
action, marks the agent complete, and leaves the registry unchanged. -/
theorem c5_resume_single_act_no_planning (env : Env) (reg : Registry)
    (sid : String) (msgs : List Message) (a : ActionObject) (sh : Stagehand)
    (hsid : sid ≠ "") (hreg : reg.get sid = some sh)
    (hact : env.actObjectB a = Except.ok ()) :
    Page.handleExecuteAction env reg sid msgs a =
      { messages := msgs ++
          [{ text := "Selected action: " ++ a.description, role := "user",
             conversationId := some sid }] ++
          [{ text := "Executed action: " ++ a.description, role := "agent",
             conversationId := some sid }],
        isAgentComplete := true, reg := reg,
        trace := [CallEvent.actObject a] } := by
  simp [Page.handleExecuteAction, NavigateRoute.POST, falsyStr_some_ne sid hsid,
    falsyStr_some_ne "Executing selected action" (by decide),
    NavigateRoute.getOrCreateStagehand, hreg, Res.pure, bind_eq,
    Res.bind, Env.actObject, callE, hact, ApiResponse.ok]

/-- Witness for C5 at a concrete chosen descriptor on a registered session. -/
theorem c5_witness :
    ("sess-1" : String) ≠ "" ∧
    Registry.get ⟨[("sess-1", ⟨"sess-1"⟩)]⟩ "sess-1" = some ⟨"sess-1"⟩ ∧
    okEnv.actObjectB ⟨"the Buy button", "click", "#buy", ["#buy"]⟩ =
      Except.ok () ∧
    Page.handleExecuteAction okEnv ⟨[("sess-1", ⟨"sess-1"⟩)]⟩ "sess-1" []
        ⟨"the Buy button", "click", "#buy", ["#buy"]⟩ =
      { messages :=
          [] ++
          [{ text := "Selected action: " ++ "the Buy button", role := "user",
             conversationId := some "sess-1" }] ++
          [{ text := "Executed action: " ++ "the Buy button", role := "agent",
             conversationId := some "sess-1" }],
        isAgentComplete := true, reg := ⟨[("sess-1", ⟨"sess-1"⟩)]⟩,
        trace := [CallEvent.actObject ⟨"the Buy button", "click", "#buy", ["#buy"]⟩] } :=
  ⟨by decide, rfl, rfl,
    c5_resume_single_act_no_planning okEnv _ "sess-1" [] _ ⟨"sess-1"⟩
      (by decide) rfl rfl⟩

/-- C6: termination is idempotent.  On a registered id the first DELETE closes
the handle and evicts it; a second DELETE on either route, finding nothing
registered, is a no-op success with no screenshot and no error; and releasing
an id that was never registered behaves exactly the same way. -/
theorem c6_idempotent_termination (env : Env) (reg : Registry)
    (sid sid2 : String) (sh : Stagehand)
    (hsid : sid ≠ "") (hreg : reg.get sid = some sh)
    (hclose : env.closeB = Except.ok ())
    (hsid2 : sid2 ≠ "") (hreg2 : reg.get sid2 = none) :
    (SessionRoute.DELETE env reg (some sid)).1 = reg.delete sid ∧
    (SessionRoute.DELETE env reg (some sid)).2.2.status = 200 ∧
    (SessionRoute.DELETE env reg (some sid)).2.2.success = true ∧
    (SessionRoute.DELETE env reg (some sid)).2.1 =
      [CallEvent.screenshot, CallEvent.close] ∧
    (reg.delete sid).get sid = none ∧
    SessionRoute.DELETE env (reg.delete sid) (some sid) =
      (reg.delete sid, [],
        { status := 200, success := true, error := none, screenshot := none }) ∧
    NavigateRoute.DELETE env reg (some sid) =
      (reg.delete sid, [CallEvent.close], { status := 200, success := true }) ∧
    NavigateRoute.DELETE env (reg.delete sid) (some sid) =
      (reg.delete sid, [], { status := 200, success := true }) ∧
    SessionRoute.DELETE env reg (some sid2) =
      (reg, [],
        { status := 200, success := true, error := none, screenshot := none }) ∧
    NavigateRoute.DELETE env reg (some sid2) =
      (reg, [], { status := 200, success := true }) := by
  have hdel := Registry.get_delete reg sid
  refine ⟨?_, ?_, ?_, ?_, hdel, ?_, ?_, ?_, ?_, ?_⟩ <;>
    simp [SessionRoute.DELETE, NavigateRoute.DELETE, falsyStr_some_ne sid hsid,
      falsyStr_some_ne sid2 hsid2, hreg, hreg2, hclose, hdel]

/-- Witness for C6 on a one-entry registry and a fresh id. -/
theorem c6_witness :
    ("sess-1" : String) ≠ "" ∧
    Registry.get ⟨[("sess-1", ⟨"sess-1"⟩)]⟩ "sess-1" = some ⟨"sess-1"⟩ ∧
    okEnv.closeB = Except.ok () ∧
    ("sess-2" : String) ≠ "" ∧
    Registry.get ⟨[("sess-1", ⟨"sess-1"⟩)]⟩ "sess-2" = none ∧
    SessionRoute.DELETE okEnv
        (Registry.delete ⟨[("sess-1", ⟨"sess-1"⟩)]⟩ "sess-1") (some "sess-1") =
      (Registry.delete ⟨[("sess-1", ⟨"sess-1"⟩)]⟩ "sess-1", [],
        { status := 200, success := true, error := none, screenshot := none }) :=
  ⟨by decide, rfl, rfl, by decide, rfl,
    (c6_idempotent_termination okEnv ⟨[("sess-1", ⟨"sess-1"⟩)]⟩
      "sess-1" "sess-2" ⟨"sess-1"⟩ (by decide) rfl rfl (by decide) rfl).2.2.2.2.2.1⟩

/-- C7: on a registered session, a failing final screenshot capture is
swallowed: the session route DELETE still closes the handle, evicts the entry
and returns success with a null screenshot and no error. -/
theorem c7_best_effort_screenshot (env : Env) (reg : Registry) (sid : String)
    (sh : Stagehand) (e : String)
    (hsid : sid ≠ "") (hreg : reg.get sid = some sh)
    (hshot : env.screenshotB = Except.error e)
    (hclose : env.closeB = Except.ok ()) :
    SessionRoute.DELETE env reg (some sid) =
      (reg.delete sid, [CallEvent.screenshot, CallEvent.close],
        { status := 200, success := true, error := none, screenshot := none }) := by
  simp [SessionRoute.DELETE, falsyStr_some_ne sid hsid, hreg, hshot, hclose]

/-- Witness for C7 with a CDP screenshot failure. -/
theorem c7_witness :
    ("sess-1" : String) ≠ "" ∧
    Registry.get ⟨[("sess-1", ⟨"sess-1"⟩)]⟩ "sess-1" = some ⟨"sess-1"⟩ ∧
    ({ okEnv with screenshotB := Except.error "CDP detached" }).screenshotB =
      Except.error "CDP detached" ∧
    ({ okEnv with screenshotB := Except.error "CDP detached" }).closeB =
      Except.ok () ∧
    SessionRoute.DELETE { okEnv with screenshotB := Except.error "CDP detached" }
        ⟨[("sess-1", ⟨"sess-1"⟩)]⟩ (some "sess-1") =
      (Registry.delete ⟨[("sess-1", ⟨"sess-1"⟩)]⟩ "sess-1",
        [CallEvent.screenshot, CallEvent.close],
        { status := 200, success := true, error := none, screenshot := none }) :=
  ⟨by decide, rfl, rfl, rfl,
    c7_best_effort_screenshot _ _ "sess-1" ⟨"sess-1"⟩ "CDP detached"
      (by decide) rfl rfl rfl⟩



/-- C1: history monotonicity.  Whatever the oracle does and however the run
ends, the step history held by the client carries stepNumber values forming
the exact sequence 1..N: the START first step carries 1, every step planned
by GET_NEXT_STEP is stamped with the prior history length plus one, and a
FOLLOW_UP_START run on the same session restarts the numbering at 1. -/
theorem c1_history_monotonicity (env : Env) (reg : Registry) (sid task : String)
    (msgs : List Message) (fuel : Nat) :
    numbered (Page.runSubmit env reg sid task fuel).1.steps ∧
    numbered (Page.runFollowUp env reg sid task msgs fuel).1.steps :=
  ⟨runSubmit_numbered env reg sid task fuel,
    runFollowUp_numbered env reg sid task msgs fuel⟩

/-- The reasoning-service stub of the step-limit scenario: it always plans
the same ACT step and never COMPLETE, over an engine on which every call
succeeds. -/
def alwaysActEnv : Env :=
  { okEnv with
    nextStepB := fun _ _ =>
      Except.ok
        ⟨"Clicking the button", "the goal still needs more clicks", "ACT",
          "click the button", false⟩ }

theorem replaceLast_append_singleton (xs : List α) (a b : α) :
    replaceLast (xs ++ [a]) b = xs ++ [b] := by
  induction xs with
  | nil => rfl
  | cons x rest ih =>
    cases rest with
    | nil => rfl
    | cons y t => simpa [replaceLast] using ih

theorem alwaysAct_iter (st : Page.LoopState) (sh : Stagehand)
    (hreg : st.reg.get "sess-1" = some sh) :
    Page.submitIter alwaysActEnv "sess-1" "click forever" st =
      ({ reg := st.reg,
         steps := st.steps ++
           [{ text := "Clicking the button",
              reasoning := "the goal still needs more clicks", tool := "ACT",
              instruction := "click the button",
              stepNumber := some (st.steps.length + 1),
              utilityBoolean := some false, observation := none,
              extraction := none }],
         trace := st.trace ++
           [CallEvent.screenshot,
            CallEvent.llmNextStep "click forever" st.steps.length,
            CallEvent.actPrompt "click the button"] }, none) := by
  simp [Page.submitIter, NavigateRoute.POST,
    falsyStr_some_ne "sess-1" (by decide),
    falsyStr_some_ne "click forever" (by decide),
    NavigateRoute.getOrCreateStagehand, hreg, Res.pure,
    NavigateRoute.respond, NavigateRoute.handleGetNextStep,
    NavigateRoute.handleExecuteStep, alwaysActEnv, okEnv, bind_eq, Res.bind,
    callE, Env.screenshot, Env.actPrompt, ApiResponse.ok,
    replaceLast_append_singleton]


theorem alwaysAct_loop (fuel : Nat) (st : Page.LoopState) (sh : Stagehand)
    (hreg : st.reg.get "sess-1" = some sh) :
    (Page.submitLoop alwaysActEnv "sess-1" "click forever" fuel st).2 = none ∧
    (Page.submitLoop alwaysActEnv "sess-1" "click forever" fuel st).1.steps.length =
      st.steps.length + fuel ∧
    (Page.submitLoop alwaysActEnv "sess-1" "click forever" fuel st).1.reg = st.reg := by
  induction fuel generalizing st with
  | zero => simp [Page.submitLoop]
  | succ n ih =>
    unfold Page.submitLoop
    rw [alwaysAct_iter st sh hreg]
    have hnext := ih
      { reg := st.reg,
        steps := st.steps ++
          [{ text := "Clicking the button",
             reasoning := "the goal still needs more clicks", tool := "ACT",
             instruction := "click the button",
             stepNumber := some (st.steps.length + 1),
             utilityBoolean := some false, observation := none,
             extraction := none }],
        trace := st.trace ++
          [CallEvent.screenshot,
           CallEvent.llmNextStep "click forever" st.steps.length,
           CallEvent.actPrompt "click the button"] }
      (by simpa using hreg)
    simp only at hnext ⊢
    refine ⟨hnext.1, ?_, hnext.2.2⟩
    rw [hnext.2.1]
    simp
    omega

/-- C3: the step-limit scenario on the source loop.  Driven by the stub that
always plans the same ACT step and never COMPLETE, the handleSubmit run never
reaches any terminal outcome no matter how many iterations it is allowed: at
every fuel bound the loop is still running and the history has grown to
fuel + 1 steps.  The source has no step cap, so the run loops forever instead
of failing with a StepLimitExceeded cause as the claim requires. -/
theorem c3_loop_has_no_step_limit (fuel : Nat) :
    (Page.runSubmit alwaysActEnv ⟨[]⟩ "sess-1" "click forever" fuel).2 = none ∧
    (Page.runSubmit alwaysActEnv ⟨[]⟩ "sess-1" "click forever" fuel).1.steps.length =
      fuel + 1 := by
  have hstart : NavigateRoute.POST alwaysActEnv ⟨[]⟩
      { sessionId := some "sess-1", task := some "click forever",
        action := some "START" } =
      (⟨[("sess-1", ⟨"sess-1"⟩)]⟩,
        [CallEvent.initSession "sess-1", CallEvent.debugUrlLookup "sess-1",
         CallEvent.llmStart "click forever",
         CallEvent.goto "https://example.com"],
        { status := 200, success := true,
          debugUrl := some "https://debug.example",
          result := some
            { text := "Navigating to " ++ "https://example.com",
              reasoning := "start here", tool := "GOTO",
              instruction := "https://example.com", stepNumber := some 1 },
          steps := some
            [{ text := "Navigating to " ++ "https://example.com",
               reasoning := "start here", tool := "GOTO",
               instruction := "https://example.com", stepNumber := some 1 }],
          done := some false }) := by
    simp [NavigateRoute.POST, falsyStr_some_ne "sess-1" (by decide),
      falsyStr_some_ne "click forever" (by decide),
      NavigateRoute.getOrCreateStagehand, NavigateRoute.respond,
      NavigateRoute.getDebugUrl, NavigateRoute.handleStartAction,
      alwaysActEnv, okEnv, bind_eq, Res.bind, callE, Env.goto, Res.pure,
      Registry.get, Registry.get.go, Registry.set, Registry.set.go]
  unfold Page.runSubmit
  rw [hstart]
  simp only [ApiResponse.ok]
  norm_num
  have hloop := alwaysAct_loop fuel
    { reg := ⟨[("sess-1", ⟨"sess-1"⟩)]⟩,
      steps :=
        [{ text := "Navigating to " ++ "https://example.com",
           reasoning := "start here", tool := "GOTO",
           instruction := "https://example.com", stepNumber := some 1 }],
      trace :=
        [CallEvent.initSession "sess-1", CallEvent.debugUrlLookup "sess-1",
         CallEvent.llmStart "click forever",
         CallEvent.goto "https://example.com"] }
    ⟨"sess-1"⟩ rfl
  refine ⟨hloop.1, ?_⟩
  rw [hloop.2.1]
  simp
  omega


end OpenOperator
